import Mathlib

/-! The sACN source detector API (`src/src/sacn/source_detector.c`)

A shallow embedding of the public source-detector entry points

* `sacn_source_detector_config_init`
* `sacn_source_detector_create`
* `sacn_source_detector_destroy`
* `sacn_source_detector_reset_networking`
* `sacn_source_detector_get_network_interfaces`

The functions these entry points call (`sacn_initialized`, `sacn_lock`,
`add_sacn_source_detector`, ...) live in other translation units
(`sacn/private/mem.h`, `sacn/private/receiver_state.h`, ...).  They are taken as a
record of parameters acting on an arbitrary library state `σ`; every call made by
an entry point is appended to a trace so that statements about *which* helper is
called, with which arguments and in which order, can be expressed.
-/

namespace Sacn

/-! ## Data model -/

/-- The EtcPal error codes named by the documentation of `source_detector.c`, with a
catch-all for the remaining members of the enumeration. -/
inductive etcpal_error_t where
  | kEtcPalErrOk
  | kEtcPalErrNotFound
  | kEtcPalErrNoMem
  | kEtcPalErrExists
  | kEtcPalErrInvalid
  | kEtcPalErrNotInit
  | kEtcPalErrNoNetints
  | kEtcPalErrSys
  | kEtcPalErrOther (code : Nat)
  deriving DecidableEq, Repr

/-- How a socket is disposed of when it is removed. -/
inductive socket_close_behavior_t where
  | kCloseSocketNow
  | kQueueSocketForClose
  deriving DecidableEq, Repr

/-- IP family of a multicast interface id. -/
inductive etcpal_iptype_t where
  | kEtcPalIpTypeInvalid
  | kEtcPalIpTypeV4
  | kEtcPalIpTypeV6
  deriving DecidableEq, Repr

/-- A network interface id: IP family and system index. -/
structure EtcPalMcastNetintId where
  ip_type : etcpal_iptype_t
  index : Nat
  deriving DecidableEq, Repr

/-- One entry of the application's interface array: the interface and the status
code the library fills in for it. -/
structure SacnMcastInterface where
  iface : EtcPalMcastNetintId
  status : etcpal_error_t
  deriving DecidableEq, Repr

/-- The callback block of the detector configuration.  A function pointer is an
address; `0` is the NULL pointer. -/
structure SacnSourceDetectorCallbacks where
  source_updated : Nat
  source_expired : Nat
  deriving DecidableEq, Repr

/-- The detector configuration.  `source_detector.c` reads `callbacks.source_updated`
and `callbacks.source_expired` only; the remaining storage of the struct is kept as
raw words in `others`. -/
structure SacnSourceDetectorConfig where
  callbacks : SacnSourceDetectorCallbacks
  others : List Nat
  deriving DecidableEq, Repr

/-- A `SacnSourceDetector*`: `none` is NULL, `some a` is the address of a detector
object owned by the library state. -/
abbrev SacnSourceDetectorPtr := Option Nat

/-- A `SacnMcastInterface*` argument together with the array it points at: `none` is
NULL. -/
abbrev NetintArray := Option (List SacnMcastInterface)

/-- A call made by an entry point to a function defined outside `source_detector.c`,
with its arguments. -/
inductive Call where
  | sacn_initialized
  | sacn_lock (acquired : Bool)
  | sacn_unlock
  | add_sacn_source_detector (config : Option SacnSourceDetectorConfig)
      (netints : NetintArray) (num_netints : Nat)
  | assign_source_detector_to_thread (detector : SacnSourceDetectorPtr)
  | remove_source_detector_from_thread (detector : SacnSourceDetectorPtr)
      (close_behavior : socket_close_behavior_t)
  | remove_sacn_source_detector
  | get_sacn_source_detector
  | sacn_sockets_reset_source_detector
  | remove_source_detector_sockets (detector : SacnSourceDetectorPtr)
      (close_behavior : socket_close_behavior_t)
  | sacn_initialize_source_detector_netints (detector : SacnSourceDetectorPtr)
      (netints : NetintArray) (num_netints : Nat)
  | add_source_detector_sockets (detector : SacnSourceDetectorPtr)
  deriving DecidableEq, Repr

/-- What `add_sacn_source_detector` hands back: its return code, the interface array
with the status codes it filled in, the value it left in `*detector_state`, and the
library state. -/
structure AddDetectorResult (σ : Type) where
  res : etcpal_error_t
  netints : NetintArray
  detector_state : SacnSourceDetectorPtr
  state : σ

/-- What `sacn_initialize_source_detector_netints` hands back: its return code, the
interface array with the status codes it filled in, and the library state. -/
structure InitNetintsResult (σ : Type) where
  res : etcpal_error_t
  netints : NetintArray
  state : σ

/-- The functions `source_detector.c` calls but does not define, as functions of the
library state `σ`.  `sacn_lock` yields `none` when the mutex cannot be taken (the
state is then untouched) and the state after locking otherwise. -/
structure Externals (σ : Type) where
  sacn_initialized : σ → Bool
  sacn_lock : σ → Option σ
  sacn_unlock : σ → σ
  add_sacn_source_detector :
    Option SacnSourceDetectorConfig → NetintArray → Nat → σ → AddDetectorResult σ
  assign_source_detector_to_thread : SacnSourceDetectorPtr → σ → etcpal_error_t × σ
  remove_source_detector_from_thread :
    SacnSourceDetectorPtr → socket_close_behavior_t → σ → σ
  remove_sacn_source_detector : σ → σ
  get_sacn_source_detector : σ → SacnSourceDetectorPtr
  sacn_sockets_reset_source_detector : σ → etcpal_error_t × σ
  remove_source_detector_sockets : SacnSourceDetectorPtr → socket_close_behavior_t → σ → σ
  sacn_initialize_source_detector_netints :
    SacnSourceDetectorPtr → NetintArray → Nat → σ → InitNetintsResult σ
  add_source_detector_sockets : SacnSourceDetectorPtr → σ → etcpal_error_t × σ

/-- The result of running an entry point that returns an `etcpal_error_t`: the return
value, the caller's interface array after the call, the library state after the call
and the calls made, oldest first. -/
structure Outcome (σ : Type) where
  res : etcpal_error_t
  netints : NetintArray
  state : σ
  trace : List Call
  deriving DecidableEq

/-- The local variables of `sacn_source_detector_create` inside the locked region. -/
structure CreateLocals (σ : Type) where
  res : etcpal_error_t
  source_detector : SacnSourceDetectorPtr
  netints : NetintArray
  state : σ
  trace : List Call

/-! ## The entry points -/

/-- The effect of `memset(config, 0, sizeof(SacnSourceDetectorConfig))`: every word of
the struct becomes zero. -/
def memset_zero (config : SacnSourceDetectorConfig) : SacnSourceDetectorConfig :=
  { callbacks := { source_updated := 0, source_expired := 0 },
    others := List.replicate config.others.length 0 }

/-- Function `sacn_source_detector_config_init` (lines 84-90).  The argument is the pointer
with the object it points at (`none` for NULL); the result is that object after the
call. -/
def sacn_source_detector_config_init (config : Option SacnSourceDetectorConfig) :
    Option SacnSourceDetectorConfig :=
  match config with
  | some c => some (memset_zero c)
  | none => none

/-- The test of line 117:
`!config || !config->callbacks.source_updated || !config->callbacks.source_expired`. -/
def config_rejected (config : Option SacnSourceDetectorConfig) : Bool :=
  match config with
  | none => true
  | some c => c.callbacks.source_updated == 0 || c.callbacks.source_expired == 0

/-- Function `sacn_source_detector_create` (lines 110-143).  The locals `res` and
`source_detector` are threaded through the four steps of the locked region. -/
def sacn_source_detector_create {σ : Type} (ext : Externals σ)
    (config : Option SacnSourceDetectorConfig) (netints : NetintArray) (num_netints : Nat)
    (s : σ) : Outcome σ :=
  let res : etcpal_error_t :=
    if ext.sacn_initialized s = false then etcpal_error_t.kEtcPalErrNotInit
    else if config_rejected config = true then etcpal_error_t.kEtcPalErrInvalid
    else etcpal_error_t.kEtcPalErrOk
  match ext.sacn_lock s with
  | some s1 =>
    let l0 : CreateLocals σ :=
      { res := res, source_detector := none, netints := netints, state := s1,
        trace := [Call.sacn_initialized, Call.sacn_lock true] }
    let l1 : CreateLocals σ :=
      if l0.res = etcpal_error_t.kEtcPalErrOk then
        let r := ext.add_sacn_source_detector config l0.netints num_netints l0.state
        { res := r.res, source_detector := r.detector_state, netints := r.netints,
          state := r.state,
          trace := l0.trace ++ [Call.add_sacn_source_detector config l0.netints num_netints] }
      else l0
    let l2 : CreateLocals σ :=
      if l1.res = etcpal_error_t.kEtcPalErrOk then
        let r := ext.assign_source_detector_to_thread l1.source_detector l1.state
        { l1 with res := r.1, state := r.2,
                  trace := l1.trace ++ [Call.assign_source_detector_to_thread l1.source_detector] }
      else l1
    let l3 : CreateLocals σ :=
      if l2.res ≠ etcpal_error_t.kEtcPalErrOk ∧ l2.source_detector ≠ none then
        { l2 with
          state := ext.remove_sacn_source_detector
            (ext.remove_source_detector_from_thread l2.source_detector
              socket_close_behavior_t.kCloseSocketNow l2.state),
          trace := l2.trace ++
            [Call.remove_source_detector_from_thread l2.source_detector
               socket_close_behavior_t.kCloseSocketNow,
             Call.remove_sacn_source_detector] }
      else l2
    { res := l3.res, netints := l3.netints, state := ext.sacn_unlock l3.state,
      trace := l3.trace ++ [Call.sacn_unlock] }
  | none =>
    { res := etcpal_error_t.kEtcPalErrSys, netints := netints, state := s,
      trace := [Call.sacn_initialized, Call.sacn_lock false] }

/-- The result of `sacn_source_detector_destroy`, which returns nothing: the library
state after the call and the calls made. -/
structure DestroyOutcome (σ : Type) where
  state : σ
  trace : List Call
  deriving DecidableEq

/-- Function `sacn_source_detector_destroy` (lines 149-158).  `&&` short-circuits: `sacn_lock`
is only called on an initialized library. -/
def sacn_source_detector_destroy {σ : Type} (ext : Externals σ) (s : σ) : DestroyOutcome σ :=
  if ext.sacn_initialized s = true then
    match ext.sacn_lock s with
    | some s1 =>
      let detector := ext.get_sacn_source_detector s1
      let s2 := ext.remove_source_detector_from_thread detector
        socket_close_behavior_t.kQueueSocketForClose s1
      let s3 := ext.remove_sacn_source_detector s2
      { state := ext.sacn_unlock s3,
        trace := [Call.sacn_initialized, Call.sacn_lock true, Call.get_sacn_source_detector,
                  Call.remove_source_detector_from_thread detector
                    socket_close_behavior_t.kQueueSocketForClose,
                  Call.remove_sacn_source_detector, Call.sacn_unlock] }
    | none => { state := s, trace := [Call.sacn_initialized, Call.sacn_lock false] }
  else { state := s, trace := [Call.sacn_initialized] }

/-- Function `sacn_source_detector_reset_networking` (lines 183-213).  `&detector->netints` is
passed on as the detector pointer it is computed from. -/
def sacn_source_detector_reset_networking {σ : Type} (ext : Externals σ)
    (netints : NetintArray) (num_netints : Nat) (s : σ) : Outcome σ :=
  let res : etcpal_error_t :=
    if ext.sacn_initialized s = false then etcpal_error_t.kEtcPalErrNotInit
    else etcpal_error_t.kEtcPalErrOk
  match ext.sacn_lock s with
  | some s1 =>
    let l0 : Outcome σ :=
      { res := res, netints := netints, state := s1,
        trace := [Call.sacn_initialized, Call.sacn_lock true] }
    let l1 : Outcome σ :=
      if l0.res = etcpal_error_t.kEtcPalErrOk then
        let r := ext.sacn_sockets_reset_source_detector l0.state
        { l0 with res := r.1, state := r.2,
                  trace := l0.trace ++ [Call.sacn_sockets_reset_source_detector] }
      else l0
    let l2 : Outcome σ :=
      if l1.res = etcpal_error_t.kEtcPalErrOk then
        let detector := ext.get_sacn_source_detector l1.state
        let s2 := ext.remove_source_detector_sockets detector
          socket_close_behavior_t.kQueueSocketForClose l1.state
        let r := ext.sacn_initialize_source_detector_netints detector l1.netints num_netints s2
        let t := l1.trace ++
          [Call.get_sacn_source_detector,
           Call.remove_source_detector_sockets detector
             socket_close_behavior_t.kQueueSocketForClose,
           Call.sacn_initialize_source_detector_netints detector l1.netints num_netints]
        if r.res = etcpal_error_t.kEtcPalErrOk then
          let a := ext.add_source_detector_sockets detector r.state
          { res := a.1, netints := r.netints, state := a.2,
            trace := t ++ [Call.add_source_detector_sockets detector] }
        else
          { res := r.res, netints := r.netints, state := r.state, trace := t }
      else l1
    { l2 with state := ext.sacn_unlock l2.state, trace := l2.trace ++ [Call.sacn_unlock] }
  | none =>
    { res := res, netints := netints, state := s,
      trace := [Call.sacn_initialized, Call.sacn_lock false] }

/-- Function `sacn_source_detector_get_network_interfaces` (lines 224-230): both arguments are
unused and `0` is returned.  The result is the return value and the caller's buffer
after the call. -/
def sacn_source_detector_get_network_interfaces {σ : Type} (_ext : Externals σ)
    (netints : NetintArray) (_netints_size : Nat) (_s : σ) : Nat × NetintArray :=
  (0, netints)

/-! ## Statements about traces and about the registry -/

/-- In the trace `t`, a call `a` is made, a call `b` is made later, and a call `c` is
made later still: one split of the trace places all three. -/
def called_in_order (a b c : Call) (t : List Call) : Prop :=
  ∃ p q r u, t = p ++ a :: (q ++ b :: (r ++ c :: u))

/-- The behaviour assumed of the detector registry kept by `mem.c`, seen through
`get_sacn_source_detector`: there is one detector at most, so taking and releasing the
lock do not touch the registry, `add_sacn_source_detector` succeeds only while no
detector is registered, and `remove_sacn_source_detector` leaves none registered. -/
structure RegistryContract {σ : Type} (ext : Externals σ) : Prop where
  lock_frame : ∀ s s1, ext.sacn_lock s = some s1 →
    ext.get_sacn_source_detector s1 = ext.get_sacn_source_detector s
  unlock_frame : ∀ s,
    ext.get_sacn_source_detector (ext.sacn_unlock s) = ext.get_sacn_source_detector s
  add_fresh : ∀ c a k s,
    (ext.add_sacn_source_detector c a k s).res = etcpal_error_t.kEtcPalErrOk →
    ext.get_sacn_source_detector s = none
  remove_clears : ∀ s,
    ext.get_sacn_source_detector (ext.remove_sacn_source_detector s) = none

/-! ## A scripted stand-in for the helper functions

The unit tests of this library link the API files against fakes whose return values
the test sets up.  `fakeExternals` is such a stand-in: every helper returns the code
scripted in the state, and the only thing the state remembers is which detector is
registered.  It supplies concrete executions for the statements below. -/

/-- The script of the fakes and the registered detector. -/
structure FakeState where
  initialized : Bool
  lock_ok : Bool
  add_result : etcpal_error_t
  assign_result : etcpal_error_t
  sockets_reset_result : etcpal_error_t
  initialize_netints_result : etcpal_error_t
  add_sockets_result : etcpal_error_t
  detector : SacnSourceDetectorPtr
  deriving DecidableEq, Repr

/-- The fakes.  `add_sacn_source_detector` refuses a second detector, registers the
detector at address `1` when scripted to succeed, and `remove_sacn_source_detector`
forgets it. -/
def fakeExternals : Externals FakeState where
  sacn_initialized := fun s => s.initialized
  sacn_lock := fun s => if s.lock_ok = true then some s else none
  sacn_unlock := fun s => s
  add_sacn_source_detector := fun _ netints _ s =>
    if s.detector ≠ none then
      { res := etcpal_error_t.kEtcPalErrExists, netints := netints, detector_state := none,
        state := s }
    else if s.add_result = etcpal_error_t.kEtcPalErrOk then
      { res := etcpal_error_t.kEtcPalErrOk, netints := netints, detector_state := some 1,
        state := { s with detector := some 1 } }
    else
      { res := s.add_result, netints := netints, detector_state := none, state := s }
  assign_source_detector_to_thread := fun _ s => (s.assign_result, s)
  remove_source_detector_from_thread := fun _ _ s => s
  remove_sacn_source_detector := fun s => { s with detector := none }
  get_sacn_source_detector := fun s => s.detector
  sacn_sockets_reset_source_detector := fun s => (s.sockets_reset_result, s)
  remove_source_detector_sockets := fun _ _ s => s
  sacn_initialize_source_detector_netints := fun _ netints _ s =>
    { res := s.initialize_netints_result, netints := netints, state := s }
  add_source_detector_sockets := fun _ s => (s.add_sockets_result, s)

/-- An initialized library on which every helper is scripted to succeed and no
detector is registered. -/
def fake_ready : FakeState :=
  { initialized := true, lock_ok := true,
    add_result := etcpal_error_t.kEtcPalErrOk,
    assign_result := etcpal_error_t.kEtcPalErrOk,
    sockets_reset_result := etcpal_error_t.kEtcPalErrOk,
    initialize_netints_result := etcpal_error_t.kEtcPalErrOk,
    add_sockets_result := etcpal_error_t.kEtcPalErrOk,
    detector := none }

/-- A configuration with both callbacks set. -/
def good_config : SacnSourceDetectorConfig :=
  { callbacks := { source_updated := 4096, source_expired := 8192 }, others := [7, 0, 3] }

/-- An initialized library whose lock cannot be taken. -/
def fake_lock_broken : FakeState := { fake_ready with lock_ok := false }

/-- An uninitialized library whose lock can be taken. -/
def fake_not_init : FakeState := { fake_ready with initialized := false }

/-- An uninitialized library whose lock cannot be taken. -/
def fake_not_init_lock_broken : FakeState :=
  { fake_ready with initialized := false, lock_ok := false }

/-- A configuration whose `source_expired` callback is missing. -/
def config_without_expired : SacnSourceDetectorConfig :=
  { callbacks := { source_updated := 4096, source_expired := 0 }, others := [7, 0, 3] }

/-- Two interfaces as an application would pass them in. -/
def two_netints : List SacnMcastInterface :=
  [ { iface := { ip_type := etcpal_iptype_t.kEtcPalIpTypeV4, index := 1 },
      status := etcpal_error_t.kEtcPalErrOk },
    { iface := { ip_type := etcpal_iptype_t.kEtcPalIpTypeV6, index := 2 },
      status := etcpal_error_t.kEtcPalErrOk } ]

/-- An initialized library on which the detector thread cannot be started for lack of
memory. -/
def fake_thread_fails : FakeState :=
  { fake_ready with assign_result := etcpal_error_t.kEtcPalErrNoMem }

/-- An initialized library with the detector at address `1` registered. -/
def fake_created : FakeState := { fake_ready with detector := some 1 }

/-- An initialized library with a registered detector on which the interface
re-initialization finds no usable interface. -/
def fake_no_netints : FakeState :=
  { fake_created with initialize_netints_result := etcpal_error_t.kEtcPalErrNoNetints }

/-! ## The interface policy behind `create`

`add_sacn_source_detector` and the interface validation it performs are declared in
`sacn/private/mem.h` and defined outside the sources at hand.  What follows models
them after the specification: section 2 (Netint Set), section 4.1 (`add_sockets`,
partial success is success) and section 4.5 (`create` follows the same policy). -/

/-- Modelled from the spec: the library state behind `add_sacn_source_detector`
(absent from the sources): whether `engine_init` ran, whether the global lock can be
taken, the interfaces of the system on which a join succeeds, what assigning the
detector to its worker thread yields, and the registered detector, if any, with the
interfaces it uses. -/
structure SpecState where
  initialized : Bool
  lock_ok : Bool
  sys_netints : List EtcPalMcastNetintId
  thread_result : etcpal_error_t
  detector : Option (List EtcPalMcastNetintId)
  deriving DecidableEq, Repr

/-- Modelled from the spec: the attempt on one requested interface (absent from the
sources).  "Each entry carries a per-attempt status": success when the interface can be
joined on this system, a failure code otherwise. -/
def attempt_netint (sys : List EtcPalMcastNetintId) (n : SacnMcastInterface) :
    SacnMcastInterface :=
  { n with status := if n.iface ∈ sys then etcpal_error_t.kEtcPalErrOk
                     else etcpal_error_t.kEtcPalErrNotFound }

/-- Modelled from the spec: the Netint Set built by `add_sacn_source_detector` (absent
from the sources).  It is "produced from an application-supplied list or 'use all
interfaces' default"; the operation "succeeds overall if at least one interface joins
successfully" and "returns `NoNetints` only if all fail".  The result is the return
code, the caller's array with the statuses filled in, and the interfaces in use. -/
def spec_initialize_netints (sys : List EtcPalMcastNetintId) (netints : NetintArray) :
    etcpal_error_t × NetintArray × List EtcPalMcastNetintId :=
  match netints with
  | none =>
    (if sys = [] then etcpal_error_t.kEtcPalErrNoNetints else etcpal_error_t.kEtcPalErrOk,
     none, sys)
  | some requested =>
    let tried := requested.map (attempt_netint sys)
    (if tried.any (fun n => decide (n.status = etcpal_error_t.kEtcPalErrOk)) = true
       then etcpal_error_t.kEtcPalErrOk else etcpal_error_t.kEtcPalErrNoNetints,
     some tried,
     (tried.filter (fun n => decide (n.status = etcpal_error_t.kEtcPalErrOk))).map
       (fun n => n.iface))

/-- Modelled from the spec: the helper functions of `source_detector.c` (absent from
the sources) over `SpecState`.  There is one source detector at most (the helpers
`get_sacn_source_detector()` and `remove_sacn_source_detector()` take no handle), so
`add_sacn_source_detector` refuses with `kEtcPalErrExists` while one is registered.
Otherwise it builds the Netint Set and registers the detector (at address `1`) when at
least one interface is usable; when none is, it registers nothing and hands back no
detector.  `sacn_initialize_source_detector_netints` rebuilds the Netint Set of the
registered detector under the same policy.  Socket bookkeeping is not modelled. -/
def specExternals : Externals SpecState where
  sacn_initialized := fun s => s.initialized
  sacn_lock := fun s => if s.lock_ok = true then some s else none
  sacn_unlock := fun s => s
  add_sacn_source_detector := fun _ netints _ s =>
    if s.detector ≠ none then
      { res := etcpal_error_t.kEtcPalErrExists, netints := netints, detector_state := none,
        state := s }
    else
      let r := spec_initialize_netints s.sys_netints netints
      if r.1 = etcpal_error_t.kEtcPalErrOk then
        { res := etcpal_error_t.kEtcPalErrOk, netints := r.2.1, detector_state := some 1,
          state := { s with detector := some r.2.2 } }
      else
        { res := r.1, netints := r.2.1, detector_state := none, state := s }
  assign_source_detector_to_thread := fun _ s => (s.thread_result, s)
  remove_source_detector_from_thread := fun _ _ s => s
  remove_sacn_source_detector := fun s => { s with detector := none }
  get_sacn_source_detector := fun s => if s.detector = none then none else some 1
  sacn_sockets_reset_source_detector := fun s => (etcpal_error_t.kEtcPalErrOk, s)
  remove_source_detector_sockets := fun _ _ s => s
  sacn_initialize_source_detector_netints := fun d netints _ s =>
    let r := spec_initialize_netints s.sys_netints netints
    { res := r.1, netints := r.2.1,
      state := if r.1 = etcpal_error_t.kEtcPalErrOk ∧ d ≠ none ∧ s.detector ≠ none
                 then { s with detector := some r.2.2 } else s }
  add_source_detector_sockets := fun _ s => (etcpal_error_t.kEtcPalErrOk, s)

/-- Number of entries of a status array that report success. -/
def count_success (st : List SacnMcastInterface) : Nat :=
  st.countP (fun n => decide (n.status = etcpal_error_t.kEtcPalErrOk))

/-- Number of entries of a status array that report a failure. -/
def count_failure (st : List SacnMcastInterface) : Nat :=
  st.countP (fun n => decide (n.status ≠ etcpal_error_t.kEtcPalErrOk))

/-- Number of requested interfaces that are usable on the system. -/
def count_usable (sys : List EtcPalMcastNetintId) (requested : List SacnMcastInterface) : Nat :=
  requested.countP (fun n => decide (n.iface ∈ sys))

/-- Interface `k` of family IPv4. -/
def netint_v4 (k : Nat) : SacnMcastInterface :=
  { iface := { ip_type := etcpal_iptype_t.kEtcPalIpTypeV4, index := k },
    status := etcpal_error_t.kEtcPalErrOk }

/-- An initialized library on a system whose only usable interface is IPv4 interface
`2`; no detector is registered. -/
def spec_ready : SpecState :=
  { initialized := true, lock_ok := true,
    sys_netints := [{ ip_type := etcpal_iptype_t.kEtcPalIpTypeV4, index := 2 }],
    thread_result := etcpal_error_t.kEtcPalErrOk,
    detector := none }

/-- An initialized library whose detector uses two interfaces. -/
def spec_created : SpecState :=
  { spec_ready with
    sys_netints := [{ ip_type := etcpal_iptype_t.kEtcPalIpTypeV4, index := 2 },
                    { ip_type := etcpal_iptype_t.kEtcPalIpTypeV6, index := 2 }],
    detector := some [{ ip_type := etcpal_iptype_t.kEtcPalIpTypeV4, index := 2 },
                      { ip_type := etcpal_iptype_t.kEtcPalIpTypeV6, index := 2 }] }

/-! ## Shared lemmas about `sacn_source_detector_create` -/

/-- The configuration test of line 117, in words: the pointer is NULL or one of the
two callbacks is NULL. -/
theorem config_rejected_iff (config : Option SacnSourceDetectorConfig) :
    config_rejected config = true ↔
      (config = none ∨
        ∃ c, config = some c ∧
          (c.callbacks.source_updated = 0 ∨ c.callbacks.source_expired = 0)) := by
  cases config with
  | none => simp [config_rejected]
  | some c => simp [config_rejected]

/-- When the lock cannot be taken, `create` makes no further call and returns
`kEtcPalErrSys`. -/
theorem create_lock_fails {σ : Type} (ext : Externals σ)
    (config : Option SacnSourceDetectorConfig) (netints : NetintArray) (num_netints : Nat)
    (s : σ) (hlock : ext.sacn_lock s = none) :
    sacn_source_detector_create ext config netints num_netints s =
      { res := etcpal_error_t.kEtcPalErrSys, netints := netints, state := s,
        trace := [Call.sacn_initialized, Call.sacn_lock false] } := by
  simp [sacn_source_detector_create, hlock]

/-- On an uninitialized library with the lock taken, `create` only unlocks again and
returns `kEtcPalErrNotInit`. -/
theorem create_not_init {σ : Type} (ext : Externals σ)
    (config : Option SacnSourceDetectorConfig) (netints : NetintArray) (num_netints : Nat)
    (s s1 : σ) (hlock : ext.sacn_lock s = some s1) (hinit : ext.sacn_initialized s = false) :
    sacn_source_detector_create ext config netints num_netints s =
      { res := etcpal_error_t.kEtcPalErrNotInit, netints := netints,
        state := ext.sacn_unlock s1,
        trace := [Call.sacn_initialized, Call.sacn_lock true, Call.sacn_unlock] } := by
  simp [sacn_source_detector_create, hlock, hinit]

/-- On an initialized library with the lock taken, a rejected configuration makes
`create` only unlock again and return `kEtcPalErrInvalid`. -/
theorem create_invalid {σ : Type} (ext : Externals σ)
    (config : Option SacnSourceDetectorConfig) (netints : NetintArray) (num_netints : Nat)
    (s s1 : σ) (hlock : ext.sacn_lock s = some s1) (hinit : ext.sacn_initialized s = true)
    (hcfg : config_rejected config = true) :
    sacn_source_detector_create ext config netints num_netints s =
      { res := etcpal_error_t.kEtcPalErrInvalid, netints := netints,
        state := ext.sacn_unlock s1,
        trace := [Call.sacn_initialized, Call.sacn_lock true, Call.sacn_unlock] } := by
  simp [sacn_source_detector_create, hlock, hinit, hcfg]

/-! ## Rejected calls of `sacn_source_detector_create` -/

/-- C1 (amended): when `config` is NULL or one of `callbacks.source_updated`,
`callbacks.source_expired` is NULL, `sacn_source_detector_create` never returns
`kEtcPalErrOk`, never calls `add_sacn_source_detector` or
`assign_source_detector_to_thread`, and leaves the library state as locking and
unlocking leave it.  On an initialized library it returns `kEtcPalErrInvalid` when the
global lock is acquired; when `sacn_lock` fails it returns `kEtcPalErrSys` instead. -/
theorem create_unusable_config {σ : Type} (ext : Externals σ)
    (config : Option SacnSourceDetectorConfig) (netints : NetintArray) (num_netints : Nat)
    (s : σ)
    (hcfg : config = none ∨
      ∃ c, config = some c ∧
        (c.callbacks.source_updated = 0 ∨ c.callbacks.source_expired = 0)) :
    (sacn_source_detector_create ext config netints num_netints s).res
        ≠ etcpal_error_t.kEtcPalErrOk ∧
    (∀ c a k, Call.add_sacn_source_detector c a k ∉
        (sacn_source_detector_create ext config netints num_netints s).trace) ∧
    (∀ d, Call.assign_source_detector_to_thread d ∉
        (sacn_source_detector_create ext config netints num_netints s).trace) ∧
    (∀ s1, ext.sacn_lock s = some s1 →
        (sacn_source_detector_create ext config netints num_netints s).state
          = ext.sacn_unlock s1) ∧
    (ext.sacn_initialized s = true → ext.sacn_lock s ≠ none →
        (sacn_source_detector_create ext config netints num_netints s).res
          = etcpal_error_t.kEtcPalErrInvalid) ∧
    (ext.sacn_lock s = none →
        (sacn_source_detector_create ext config netints num_netints s).res
          = etcpal_error_t.kEtcPalErrSys ∧
        (sacn_source_detector_create ext config netints num_netints s).state = s) := by
  have hrej : config_rejected config = true := (config_rejected_iff config).mpr hcfg
  cases hlock : ext.sacn_lock s with
  | none => simp [create_lock_fails ext config netints num_netints s hlock]
  | some s1 =>
    cases hinit : ext.sacn_initialized s with
    | false => simp [create_not_init ext config netints num_netints s s1 hlock hinit]
    | true => simp [create_invalid ext config netints num_netints s s1 hlock hinit hrej]

/-- C1, a concrete run: a configuration without `source_expired` on an initialized
library with the lock available is refused with `kEtcPalErrInvalid`, and neither
`add_sacn_source_detector` nor `assign_source_detector_to_thread` is called. -/
theorem create_unusable_config_witness :
    (sacn_source_detector_create fakeExternals (some config_without_expired)
        (some two_netints) 2 fake_ready).res = etcpal_error_t.kEtcPalErrInvalid ∧
    (sacn_source_detector_create fakeExternals (some config_without_expired)
        (some two_netints) 2 fake_ready).trace
      = [Call.sacn_initialized, Call.sacn_lock true, Call.sacn_unlock] ∧
    (sacn_source_detector_create fakeExternals (some config_without_expired)
        (some two_netints) 2 fake_ready).state.detector = none :=
  ⟨(create_unusable_config fakeExternals (some config_without_expired)
      (some two_netints) 2 fake_ready
      (Or.inr ⟨config_without_expired, rfl, Or.inr rfl⟩)).2.2.2.2.1 (by decide) (by decide),
   by decide, by decide⟩

/-- C1 as stated fails: on an initialized library whose lock cannot be taken, `create`
with a NULL `config` returns `kEtcPalErrSys`, not `kEtcPalErrInvalid`. -/
theorem create_null_config_lock_failure :
    fakeExternals.sacn_initialized fake_lock_broken = true ∧
    (sacn_source_detector_create fakeExternals none none 0 fake_lock_broken).res
      = etcpal_error_t.kEtcPalErrSys ∧
    (sacn_source_detector_create fakeExternals none none 0 fake_lock_broken).res
      ≠ etcpal_error_t.kEtcPalErrInvalid := by
  decide

/-- C2 (amended): on a library that has not been initialized,
`sacn_source_detector_create` returns `kEtcPalErrNotInit` for every config (usable or
not) and every interface list when the global lock is acquired, and `kEtcPalErrSys`
when `sacn_lock` fails; in both cases no detector is added: neither
`add_sacn_source_detector` nor `assign_source_detector_to_thread` is called, the
caller's interface array is untouched and the library state is as locking and unlocking
leave it. -/
theorem create_not_initialized {σ : Type} (ext : Externals σ)
    (config : Option SacnSourceDetectorConfig) (netints : NetintArray) (num_netints : Nat)
    (s : σ) (hinit : ext.sacn_initialized s = false) :
    (ext.sacn_lock s ≠ none →
        (sacn_source_detector_create ext config netints num_netints s).res
          = etcpal_error_t.kEtcPalErrNotInit) ∧
    (ext.sacn_lock s = none →
        (sacn_source_detector_create ext config netints num_netints s).res
          = etcpal_error_t.kEtcPalErrSys ∧
        (sacn_source_detector_create ext config netints num_netints s).state = s) ∧
    (∀ c a k, Call.add_sacn_source_detector c a k ∉
        (sacn_source_detector_create ext config netints num_netints s).trace) ∧
    (∀ d, Call.assign_source_detector_to_thread d ∉
        (sacn_source_detector_create ext config netints num_netints s).trace) ∧
    (sacn_source_detector_create ext config netints num_netints s).netints = netints ∧
    (∀ s1, ext.sacn_lock s = some s1 →
        (sacn_source_detector_create ext config netints num_netints s).state
          = ext.sacn_unlock s1) := by
  cases hlock : ext.sacn_lock s with
  | none => simp [create_lock_fails ext config netints num_netints s hlock]
  | some s1 => simp [create_not_init ext config netints num_netints s s1 hlock hinit]

/-- C2, a concrete run: a usable configuration on an uninitialized library with the
lock available is answered `kEtcPalErrNotInit` and the registry stays empty. -/
theorem create_not_initialized_witness :
    (sacn_source_detector_create fakeExternals (some good_config) (some two_netints) 2
        fake_not_init).res = etcpal_error_t.kEtcPalErrNotInit ∧
    (sacn_source_detector_create fakeExternals (some good_config) (some two_netints) 2
        fake_not_init).trace
      = [Call.sacn_initialized, Call.sacn_lock true, Call.sacn_unlock] ∧
    (sacn_source_detector_create fakeExternals (some good_config) (some two_netints) 2
        fake_not_init).state.detector = none :=
  ⟨(create_not_initialized fakeExternals (some good_config) (some two_netints) 2
      fake_not_init (by decide)).1 (by decide),
   by decide, by decide⟩

/-- C2 as stated fails: on an uninitialized library whose lock cannot be taken,
`create` with a usable configuration returns `kEtcPalErrSys`, not
`kEtcPalErrNotInit`. -/
theorem create_not_initialized_lock_failure :
    fakeExternals.sacn_initialized fake_not_init_lock_broken = false ∧
    (sacn_source_detector_create fakeExternals (some good_config) (some two_netints) 2
        fake_not_init_lock_broken).res = etcpal_error_t.kEtcPalErrSys ∧
    (sacn_source_detector_create fakeExternals (some good_config) (some two_netints) 2
        fake_not_init_lock_broken).res ≠ etcpal_error_t.kEtcPalErrNotInit := by
  decide

/-! ## `sacn_source_detector_config_init` followed by `create` -/

/-- After `memset` the configuration is one that line 117 rejects. -/
theorem config_rejected_memset_zero (c : SacnSourceDetectorConfig) :
    config_rejected (some (memset_zero c)) = true := by
  simp [config_rejected, memset_zero]

/-- C9 (amended): `sacn_source_detector_config_init` turns every configuration object
into the all-zero one (both callbacks NULL, every other word zero), and on NULL it does
nothing.  `sacn_source_detector_create` with a configuration that was only initialized
this way, on an initialized library, returns `kEtcPalErrInvalid` when the global lock is
acquired, making no call besides lock and unlock; when `sacn_lock` fails it returns
`kEtcPalErrSys`, again creating nothing. -/
theorem config_init_then_create {σ : Type} (ext : Externals σ)
    (c : SacnSourceDetectorConfig) (netints : NetintArray) (num_netints : Nat) (s : σ) :
    (∃ z, sacn_source_detector_config_init (some c) = some z ∧
        z.callbacks.source_updated = 0 ∧ z.callbacks.source_expired = 0 ∧
        z.others.length = c.others.length ∧ ∀ w ∈ z.others, w = 0) ∧
    sacn_source_detector_config_init none = none ∧
    (ext.sacn_initialized s = true → ∀ s1, ext.sacn_lock s = some s1 →
        sacn_source_detector_create ext (sacn_source_detector_config_init (some c))
            netints num_netints s =
          { res := etcpal_error_t.kEtcPalErrInvalid, netints := netints,
            state := ext.sacn_unlock s1,
            trace := [Call.sacn_initialized, Call.sacn_lock true, Call.sacn_unlock] }) ∧
    (ext.sacn_lock s = none →
        sacn_source_detector_create ext (sacn_source_detector_config_init (some c))
            netints num_netints s =
          { res := etcpal_error_t.kEtcPalErrSys, netints := netints, state := s,
            trace := [Call.sacn_initialized, Call.sacn_lock false] }) := by
  refine ⟨⟨memset_zero c, rfl, rfl, rfl, by simp [memset_zero], ?_⟩, rfl, ?_, ?_⟩
  · intro w hw
    exact List.eq_of_mem_replicate hw
  · intro hinit s1 hlock
    exact create_invalid ext _ netints num_netints s s1 hlock hinit
      (config_rejected_memset_zero c)
  · intro hlock
    exact create_lock_fails ext _ netints num_netints s hlock

/-- C9, a concrete run: a usable configuration that is passed through
`sacn_source_detector_config_init` is refused with `kEtcPalErrInvalid` on an initialized
library with the lock available, and nothing is registered. -/
theorem config_init_then_create_witness :
    sacn_source_detector_config_init (some good_config) =
      some { callbacks := { source_updated := 0, source_expired := 0 }, others := [0, 0, 0] } ∧
    sacn_source_detector_create fakeExternals (sacn_source_detector_config_init (some good_config))
        (some two_netints) 2 fake_ready =
      { res := etcpal_error_t.kEtcPalErrInvalid, netints := some two_netints,
        state := fake_ready,
        trace := [Call.sacn_initialized, Call.sacn_lock true, Call.sacn_unlock] } :=
  ⟨by decide,
   (config_init_then_create fakeExternals good_config (some two_netints) 2 fake_ready).2.2.1
     (by decide) fake_ready (by decide)⟩

/-- C9 as stated fails: on an initialized library whose lock cannot be taken, `create`
with a freshly initialized configuration returns `kEtcPalErrSys`, not
`kEtcPalErrInvalid`. -/
theorem config_init_then_create_lock_failure :
    fakeExternals.sacn_initialized fake_lock_broken = true ∧
    (sacn_source_detector_create fakeExternals
        (sacn_source_detector_config_init (some good_config)) (some two_netints) 2
        fake_lock_broken).res = etcpal_error_t.kEtcPalErrSys ∧
    (sacn_source_detector_create fakeExternals
        (sacn_source_detector_config_init (some good_config)) (some two_netints) 2
        fake_lock_broken).res ≠ etcpal_error_t.kEtcPalErrInvalid := by
  decide

/-! ## Failure of the thread assignment in `create` -/

/-- The fakes keep the registry contract. -/
theorem fakeExternals_registry : RegistryContract fakeExternals where
  lock_frame := by
    intro s s1 h
    simp only [fakeExternals] at h ⊢
    split at h
    · cases h; rfl
    · cases h
  unlock_frame := by intro s; rfl
  add_fresh := by
    intro c a k s h
    simp only [fakeExternals] at h ⊢
    by_cases hd : s.detector = none
    · exact hd
    · simp [hd] at h
  remove_clears := by intro s; rfl

/-- The helper `add_sacn_source_detector` is called by `create` only on an initialized library,
with the lock held and a configuration that passed line 117. -/
theorem create_calls_add {σ : Type} (ext : Externals σ)
    (config : Option SacnSourceDetectorConfig) (netints : NetintArray) (num_netints : Nat)
    (s s1 : σ) (hlock : ext.sacn_lock s = some s1) (c : Option SacnSourceDetectorConfig)
    (a : NetintArray) (k : Nat)
    (hcall : Call.add_sacn_source_detector c a k ∈
      (sacn_source_detector_create ext config netints num_netints s).trace) :
    ext.sacn_initialized s = true ∧ config_rejected config = false := by
  cases hinit : ext.sacn_initialized s with
  | false =>
    rw [create_not_init ext config netints num_netints s s1 hlock hinit] at hcall
    simp at hcall
  | true =>
    cases hrej : config_rejected config with
    | true =>
      rw [create_invalid ext config netints num_netints s s1 hlock hinit hrej] at hcall
      simp at hcall
    | false => exact ⟨rfl, rfl⟩

/-- The run of `create` in which the detector is added and the thread assignment then
fails: both removals follow, in order, and the assignment's code is returned. -/
theorem create_assign_fails {σ : Type} (ext : Externals σ)
    (config : Option SacnSourceDetectorConfig) (netints : NetintArray) (num_netints : Nat)
    (s s1 : σ) (d : Nat) (e : etcpal_error_t)
    (hlock : ext.sacn_lock s = some s1) (hinit : ext.sacn_initialized s = true)
    (hcfg : config_rejected config = false)
    (hadd : (ext.add_sacn_source_detector config netints num_netints s1).res
      = etcpal_error_t.kEtcPalErrOk)
    (hdet : (ext.add_sacn_source_detector config netints num_netints s1).detector_state
      = some d)
    (hassign : (ext.assign_source_detector_to_thread (some d)
      (ext.add_sacn_source_detector config netints num_netints s1).state).1 = e)
    (he : e ≠ etcpal_error_t.kEtcPalErrOk) :
    sacn_source_detector_create ext config netints num_netints s =
      { res := e,
        netints := (ext.add_sacn_source_detector config netints num_netints s1).netints,
        state := ext.sacn_unlock (ext.remove_sacn_source_detector
          (ext.remove_source_detector_from_thread (some d)
            socket_close_behavior_t.kCloseSocketNow
            (ext.assign_source_detector_to_thread (some d)
              (ext.add_sacn_source_detector config netints num_netints s1).state).2)),
        trace := [Call.sacn_initialized, Call.sacn_lock true,
                  Call.add_sacn_source_detector config netints num_netints,
                  Call.assign_source_detector_to_thread (some d),
                  Call.remove_source_detector_from_thread (some d)
                    socket_close_behavior_t.kCloseSocketNow,
                  Call.remove_sacn_source_detector, Call.sacn_unlock] } := by
  subst hassign
  simp [sacn_source_detector_create, hlock, hinit, hcfg, hadd, hdet, he]

/-- A run of `create` that returns `kEtcPalErrOk` calls neither removal function. -/
theorem create_ok_no_removal {σ : Type} (ext : Externals σ)
    (config : Option SacnSourceDetectorConfig) (netints : NetintArray) (num_netints : Nat)
    (s : σ)
    (hok : (sacn_source_detector_create ext config netints num_netints s).res
      = etcpal_error_t.kEtcPalErrOk) :
    (∀ d b, Call.remove_source_detector_from_thread d b ∉
        (sacn_source_detector_create ext config netints num_netints s).trace) ∧
    Call.remove_sacn_source_detector ∉
        (sacn_source_detector_create ext config netints num_netints s).trace := by
  cases hlock : ext.sacn_lock s with
  | none =>
    rw [create_lock_fails ext config netints num_netints s hlock] at hok
    simp at hok
  | some s1 =>
    cases hinit : ext.sacn_initialized s with
    | false =>
      rw [create_not_init ext config netints num_netints s s1 hlock hinit] at hok
      simp at hok
    | true =>
      cases hrej : config_rejected config with
      | true =>
        rw [create_invalid ext config netints num_netints s s1 hlock hinit hrej] at hok
        simp at hok
      | false =>
        by_cases hadd : (ext.add_sacn_source_detector config netints num_netints s1).res
            = etcpal_error_t.kEtcPalErrOk
        · by_cases hassign : (ext.assign_source_detector_to_thread
              (ext.add_sacn_source_detector config netints num_netints s1).detector_state
              (ext.add_sacn_source_detector config netints num_netints s1).state).1
              = etcpal_error_t.kEtcPalErrOk
          · simp [sacn_source_detector_create, hlock, hinit, hrej, hadd, hassign]
          · exfalso
            simp [sacn_source_detector_create, hlock, hinit, hrej, hadd, hassign] at hok
            split_ifs at hok <;> exact hassign hok
        · exfalso
          simp [sacn_source_detector_create, hlock, hinit, hrej, hadd] at hok
          split_ifs at hok <;> exact hadd hok

/-- C8: `sacn_source_detector_create` is atomic on failure.  In every run in which
`add_sacn_source_detector` is called, succeeds and produces a detector `d`, and
`assign_source_detector_to_thread` then returns an error `e`, `create` calls
`remove_source_detector_from_thread(d, kCloseSocketNow)` and then
`remove_sacn_source_detector()`, releases the lock and returns exactly `e`; with a
registry that keeps `RegistryContract`, `get_sacn_source_detector` answers after the
call what it answered before it.  Conversely a run that returns `kEtcPalErrOk` calls
neither removal function. -/
theorem create_atomic_on_failure {σ : Type} (ext : Externals σ)
    (config : Option SacnSourceDetectorConfig) (netints : NetintArray) (num_netints : Nat)
    (s : σ) :
    (∀ s1 d e, ext.sacn_lock s = some s1 →
      Call.add_sacn_source_detector config netints num_netints ∈
        (sacn_source_detector_create ext config netints num_netints s).trace →
      (ext.add_sacn_source_detector config netints num_netints s1).res
        = etcpal_error_t.kEtcPalErrOk →
      (ext.add_sacn_source_detector config netints num_netints s1).detector_state = some d →
      (ext.assign_source_detector_to_thread (some d)
        (ext.add_sacn_source_detector config netints num_netints s1).state).1 = e →
      e ≠ etcpal_error_t.kEtcPalErrOk →
        (sacn_source_detector_create ext config netints num_netints s).res = e ∧
        (sacn_source_detector_create ext config netints num_netints s).trace =
          [Call.sacn_initialized, Call.sacn_lock true,
           Call.add_sacn_source_detector config netints num_netints,
           Call.assign_source_detector_to_thread (some d),
           Call.remove_source_detector_from_thread (some d)
             socket_close_behavior_t.kCloseSocketNow,
           Call.remove_sacn_source_detector, Call.sacn_unlock] ∧
        (sacn_source_detector_create ext config netints num_netints s).state =
          ext.sacn_unlock (ext.remove_sacn_source_detector
            (ext.remove_source_detector_from_thread (some d)
              socket_close_behavior_t.kCloseSocketNow
              (ext.assign_source_detector_to_thread (some d)
                (ext.add_sacn_source_detector config netints num_netints s1).state).2)) ∧
        (RegistryContract ext →
          ext.get_sacn_source_detector
              (sacn_source_detector_create ext config netints num_netints s).state
            = ext.get_sacn_source_detector s)) ∧
    ((sacn_source_detector_create ext config netints num_netints s).res
        = etcpal_error_t.kEtcPalErrOk →
      (∀ d b, Call.remove_source_detector_from_thread d b ∉
        (sacn_source_detector_create ext config netints num_netints s).trace) ∧
      Call.remove_sacn_source_detector ∉
        (sacn_source_detector_create ext config netints num_netints s).trace) := by
  refine ⟨?_, create_ok_no_removal ext config netints num_netints s⟩
  intro s1 d e hlock hcall hadd hdet hassign he
  obtain ⟨hinit, hcfg⟩ :=
    create_calls_add ext config netints num_netints s s1 hlock config netints num_netints hcall
  have hrun := create_assign_fails ext config netints num_netints s s1 d e hlock hinit hcfg
    hadd hdet hassign he
  refine ⟨by rw [hrun], by rw [hrun], by rw [hrun], ?_⟩
  intro hreg
  rw [hrun]
  simp only []
  rw [hreg.unlock_frame, hreg.remove_clears, ← hreg.lock_frame s s1 hlock,
    hreg.add_fresh config netints num_netints s1 hadd]

/-- C8, a concrete run: the detector is added at address `1`, starting its thread
fails with `kEtcPalErrNoMem`; both removals follow, `kEtcPalErrNoMem` is returned and
no detector is registered afterwards, as before. -/
theorem create_atomic_on_failure_witness :
    (sacn_source_detector_create fakeExternals (some good_config) (some two_netints) 2
        fake_thread_fails).res = etcpal_error_t.kEtcPalErrNoMem ∧
    (sacn_source_detector_create fakeExternals (some good_config) (some two_netints) 2
        fake_thread_fails).trace =
      [Call.sacn_initialized, Call.sacn_lock true,
       Call.add_sacn_source_detector (some good_config) (some two_netints) 2,
       Call.assign_source_detector_to_thread (some 1),
       Call.remove_source_detector_from_thread (some 1)
         socket_close_behavior_t.kCloseSocketNow,
       Call.remove_sacn_source_detector, Call.sacn_unlock] ∧
    fakeExternals.get_sacn_source_detector
        (sacn_source_detector_create fakeExternals (some good_config) (some two_netints) 2
          fake_thread_fails).state
      = fakeExternals.get_sacn_source_detector fake_thread_fails ∧
    fakeExternals.get_sacn_source_detector fake_thread_fails = none :=
  have h := (create_atomic_on_failure fakeExternals (some good_config) (some two_netints) 2
    fake_thread_fails).1 fake_thread_fails 1 etcpal_error_t.kEtcPalErrNoMem
    (by decide) (by decide) (by decide) (by decide) (by decide) (by decide)
  ⟨h.1, h.2.1, h.2.2.2 fakeExternals_registry, by decide⟩

/-! ## `sacn_source_detector_destroy` -/

/-- C10: `sacn_source_detector_destroy` changes state only when the library is
initialized and the global lock is acquired.  In that case it calls
`remove_source_detector_from_thread(get_sacn_source_detector(), kQueueSocketForClose)`,
then `remove_sacn_source_detector()`, then releases the lock, and it never asks for a
synchronous close.  When the library is not initialized it does not call `sacn_lock` and
the library state is unchanged; when the lock cannot be taken the state is unchanged as
well. -/
theorem destroy_effects {σ : Type} (ext : Externals σ) (s : σ) :
    (ext.sacn_initialized s = false →
      sacn_source_detector_destroy ext s = { state := s, trace := [Call.sacn_initialized] } ∧
      ∀ b, Call.sacn_lock b ∉ (sacn_source_detector_destroy ext s).trace) ∧
    (ext.sacn_initialized s = true → ext.sacn_lock s = none →
      sacn_source_detector_destroy ext s =
        { state := s, trace := [Call.sacn_initialized, Call.sacn_lock false] }) ∧
    (ext.sacn_initialized s = true → ∀ s1, ext.sacn_lock s = some s1 →
      sacn_source_detector_destroy ext s =
        { state := ext.sacn_unlock (ext.remove_sacn_source_detector
            (ext.remove_source_detector_from_thread (ext.get_sacn_source_detector s1)
              socket_close_behavior_t.kQueueSocketForClose s1)),
          trace := [Call.sacn_initialized, Call.sacn_lock true, Call.get_sacn_source_detector,
                    Call.remove_source_detector_from_thread (ext.get_sacn_source_detector s1)
                      socket_close_behavior_t.kQueueSocketForClose,
                    Call.remove_sacn_source_detector, Call.sacn_unlock] }) ∧
    (∀ d, Call.remove_source_detector_from_thread d socket_close_behavior_t.kCloseSocketNow ∉
      (sacn_source_detector_destroy ext s).trace) ∧
    ((sacn_source_detector_destroy ext s).state ≠ s →
      ext.sacn_initialized s = true ∧ ext.sacn_lock s ≠ none) := by
  cases hinit : ext.sacn_initialized s with
  | false => simp [sacn_source_detector_destroy, hinit]
  | true =>
    cases hlock : ext.sacn_lock s with
    | none => simp [sacn_source_detector_destroy, hinit, hlock]
    | some s1 => simp [sacn_source_detector_destroy, hinit, hlock]

/-- C10, concrete runs: destroying the registered detector of an initialized library
queues its sockets for close and empties the registry; on an uninitialized library
nothing but `sacn_initialized` is called and the state stays as it was. -/
theorem destroy_effects_witness :
    sacn_source_detector_destroy fakeExternals fake_created =
      { state := fake_ready,
        trace := [Call.sacn_initialized, Call.sacn_lock true, Call.get_sacn_source_detector,
                  Call.remove_source_detector_from_thread (some 1)
                    socket_close_behavior_t.kQueueSocketForClose,
                  Call.remove_sacn_source_detector, Call.sacn_unlock] } ∧
    sacn_source_detector_destroy fakeExternals { fake_created with initialized := false } =
      { state := { fake_created with initialized := false },
        trace := [Call.sacn_initialized] } :=
  ⟨(destroy_effects fakeExternals fake_created).2.2.1 (by decide) fake_created (by decide),
   ((destroy_effects fakeExternals { fake_created with initialized := false }).1
      (by decide)).1⟩

/-! ## `sacn_source_detector_reset_networking` -/

/-- When the lock cannot be taken, `reset_networking` makes no further call and
returns what the initialization test left in `res`. -/
theorem reset_lock_fails {σ : Type} (ext : Externals σ) (netints : NetintArray)
    (num_netints : Nat) (s : σ) (hlock : ext.sacn_lock s = none) :
    sacn_source_detector_reset_networking ext netints num_netints s =
      { res := if ext.sacn_initialized s = false then etcpal_error_t.kEtcPalErrNotInit
               else etcpal_error_t.kEtcPalErrOk,
        netints := netints, state := s,
        trace := [Call.sacn_initialized, Call.sacn_lock false] } := by
  simp [sacn_source_detector_reset_networking, hlock]

/-- On an uninitialized library with the lock taken, `reset_networking` only unlocks
again. -/
theorem reset_not_init {σ : Type} (ext : Externals σ) (netints : NetintArray)
    (num_netints : Nat) (s s1 : σ) (hlock : ext.sacn_lock s = some s1)
    (hinit : ext.sacn_initialized s = false) :
    sacn_source_detector_reset_networking ext netints num_netints s =
      { res := etcpal_error_t.kEtcPalErrNotInit, netints := netints,
        state := ext.sacn_unlock s1,
        trace := [Call.sacn_initialized, Call.sacn_lock true, Call.sacn_unlock] } := by
  simp [sacn_source_detector_reset_networking, hlock, hinit]

/-- When `sacn_sockets_reset_source_detector` fails, `reset_networking` returns its
code and touches no socket. -/
theorem reset_sockets_reset_fails {σ : Type} (ext : Externals σ) (netints : NetintArray)
    (num_netints : Nat) (s s1 : σ) (hlock : ext.sacn_lock s = some s1)
    (hinit : ext.sacn_initialized s = true)
    (hreset : (ext.sacn_sockets_reset_source_detector s1).1 ≠ etcpal_error_t.kEtcPalErrOk) :
    sacn_source_detector_reset_networking ext netints num_netints s =
      { res := (ext.sacn_sockets_reset_source_detector s1).1, netints := netints,
        state := ext.sacn_unlock (ext.sacn_sockets_reset_source_detector s1).2,
        trace := [Call.sacn_initialized, Call.sacn_lock true,
                  Call.sacn_sockets_reset_source_detector, Call.sacn_unlock] } := by
  simp [sacn_source_detector_reset_networking, hlock, hinit, hreset]

/-- When the interface re-initialization fails, `reset_networking` returns its code
after the old sockets were queued for close, and adds no socket. -/
theorem reset_netints_fail {σ : Type} (ext : Externals σ) (netints : NetintArray)
    (num_netints : Nat) (s s1 : σ) (hlock : ext.sacn_lock s = some s1)
    (hinit : ext.sacn_initialized s = true)
    (hreset : (ext.sacn_sockets_reset_source_detector s1).1 = etcpal_error_t.kEtcPalErrOk)
    (hnetints : (ext.sacn_initialize_source_detector_netints
        (ext.get_sacn_source_detector (ext.sacn_sockets_reset_source_detector s1).2)
        netints num_netints
        (ext.remove_source_detector_sockets
          (ext.get_sacn_source_detector (ext.sacn_sockets_reset_source_detector s1).2)
          socket_close_behavior_t.kQueueSocketForClose
          (ext.sacn_sockets_reset_source_detector s1).2)).res
      ≠ etcpal_error_t.kEtcPalErrOk) :
    sacn_source_detector_reset_networking ext netints num_netints s =
      { res := (ext.sacn_initialize_source_detector_netints
          (ext.get_sacn_source_detector (ext.sacn_sockets_reset_source_detector s1).2)
          netints num_netints
          (ext.remove_source_detector_sockets
            (ext.get_sacn_source_detector (ext.sacn_sockets_reset_source_detector s1).2)
            socket_close_behavior_t.kQueueSocketForClose
            (ext.sacn_sockets_reset_source_detector s1).2)).res,
        netints := (ext.sacn_initialize_source_detector_netints
          (ext.get_sacn_source_detector (ext.sacn_sockets_reset_source_detector s1).2)
          netints num_netints
          (ext.remove_source_detector_sockets
            (ext.get_sacn_source_detector (ext.sacn_sockets_reset_source_detector s1).2)
            socket_close_behavior_t.kQueueSocketForClose
            (ext.sacn_sockets_reset_source_detector s1).2)).netints,
        state := ext.sacn_unlock (ext.sacn_initialize_source_detector_netints
          (ext.get_sacn_source_detector (ext.sacn_sockets_reset_source_detector s1).2)
          netints num_netints
          (ext.remove_source_detector_sockets
            (ext.get_sacn_source_detector (ext.sacn_sockets_reset_source_detector s1).2)
            socket_close_behavior_t.kQueueSocketForClose
            (ext.sacn_sockets_reset_source_detector s1).2)).state,
        trace := [Call.sacn_initialized, Call.sacn_lock true,
                  Call.sacn_sockets_reset_source_detector, Call.get_sacn_source_detector,
                  Call.remove_source_detector_sockets
                    (ext.get_sacn_source_detector (ext.sacn_sockets_reset_source_detector s1).2)
                    socket_close_behavior_t.kQueueSocketForClose,
                  Call.sacn_initialize_source_detector_netints
                    (ext.get_sacn_source_detector (ext.sacn_sockets_reset_source_detector s1).2)
                    netints num_netints,
                  Call.sacn_unlock] } := by
  simp [sacn_source_detector_reset_networking, hlock, hinit, hreset, hnetints]

/-- When the interface re-initialization succeeds, `reset_networking` adds the new
sockets after the old ones were queued for close and returns the code of
`add_source_detector_sockets`. -/
theorem reset_adds_sockets {σ : Type} (ext : Externals σ) (netints : NetintArray)
    (num_netints : Nat) (s s1 : σ) (hlock : ext.sacn_lock s = some s1)
    (hinit : ext.sacn_initialized s = true)
    (hreset : (ext.sacn_sockets_reset_source_detector s1).1 = etcpal_error_t.kEtcPalErrOk)
    (hnetints : (ext.sacn_initialize_source_detector_netints
        (ext.get_sacn_source_detector (ext.sacn_sockets_reset_source_detector s1).2)
        netints num_netints
        (ext.remove_source_detector_sockets
          (ext.get_sacn_source_detector (ext.sacn_sockets_reset_source_detector s1).2)
          socket_close_behavior_t.kQueueSocketForClose
          (ext.sacn_sockets_reset_source_detector s1).2)).res
      = etcpal_error_t.kEtcPalErrOk) :
    (sacn_source_detector_reset_networking ext netints num_netints s).res =
      (ext.add_source_detector_sockets
        (ext.get_sacn_source_detector (ext.sacn_sockets_reset_source_detector s1).2)
        (ext.sacn_initialize_source_detector_netints
          (ext.get_sacn_source_detector (ext.sacn_sockets_reset_source_detector s1).2)
          netints num_netints
          (ext.remove_source_detector_sockets
            (ext.get_sacn_source_detector (ext.sacn_sockets_reset_source_detector s1).2)
            socket_close_behavior_t.kQueueSocketForClose
            (ext.sacn_sockets_reset_source_detector s1).2)).state).1 ∧
    (sacn_source_detector_reset_networking ext netints num_netints s).trace =
      [Call.sacn_initialized, Call.sacn_lock true,
       Call.sacn_sockets_reset_source_detector, Call.get_sacn_source_detector,
       Call.remove_source_detector_sockets
         (ext.get_sacn_source_detector (ext.sacn_sockets_reset_source_detector s1).2)
         socket_close_behavior_t.kQueueSocketForClose,
       Call.sacn_initialize_source_detector_netints
         (ext.get_sacn_source_detector (ext.sacn_sockets_reset_source_detector s1).2)
         netints num_netints,
       Call.add_source_detector_sockets
         (ext.get_sacn_source_detector (ext.sacn_sockets_reset_source_detector s1).2),
       Call.sacn_unlock] := by
  simp [sacn_source_detector_reset_networking, hlock, hinit, hreset, hnetints]

/-- In the trace of a successful reset, nothing that precedes the teardown call is a
call of `add_source_detector_sockets`. -/
theorem trace_prefix_no_add (d : SacnSourceDetectorPtr) (netints : NetintArray)
    (num_netints : Nat) (p u : List Call)
    (hsplit : [Call.sacn_initialized, Call.sacn_lock true,
        Call.sacn_sockets_reset_source_detector, Call.get_sacn_source_detector,
        Call.remove_source_detector_sockets d socket_close_behavior_t.kQueueSocketForClose,
        Call.sacn_initialize_source_detector_netints d netints num_netints,
        Call.add_source_detector_sockets d, Call.sacn_unlock] =
      p ++ Call.remove_source_detector_sockets d
        socket_close_behavior_t.kQueueSocketForClose :: u)
    (e : SacnSourceDetectorPtr) : Call.add_source_detector_sockets e ∉ p := by
  intro hmem
  match p, hsplit, hmem with
  | [], _, hmem => simp at hmem
  | [_], h, _ => simp at h
  | [_, _], h, _ => simp at h
  | [_, _, _], h, _ => simp at h
  | [_, _, _, _], h, hmem =>
    simp at h; obtain ⟨h1, h2, h3, h4, _⟩ := h; subst h1 h2 h3 h4; simp at hmem
  | _ :: _ :: _ :: _ :: _ :: q, h, _ =>
    simp at h
    obtain ⟨_, _, _, _, _, h6⟩ := h
    match q, h6 with
    | [], h6 => simp at h6
    | [_], h6 => simp at h6
    | [_, _], h6 => simp at h6
    | _ :: _ :: _ :: _, h6 => simp at h6

/-- The helper `add_source_detector_sockets` is called by `reset_networking` only with the lock
held, on an initialized library, after `sacn_sockets_reset_source_detector` and
`sacn_initialize_source_detector_netints` both returned `kEtcPalErrOk`, and only on the
detector `get_sacn_source_detector` returned. -/
theorem reset_calls_add_sockets {σ : Type} (ext : Externals σ) (netints : NetintArray)
    (num_netints : Nat) (s : σ) (d : SacnSourceDetectorPtr)
    (hcall : Call.add_source_detector_sockets d ∈
      (sacn_source_detector_reset_networking ext netints num_netints s).trace) :
    ∃ s1, ext.sacn_lock s = some s1 ∧ ext.sacn_initialized s = true ∧
      (ext.sacn_sockets_reset_source_detector s1).1 = etcpal_error_t.kEtcPalErrOk ∧
      d = ext.get_sacn_source_detector (ext.sacn_sockets_reset_source_detector s1).2 ∧
      (ext.sacn_initialize_source_detector_netints d netints num_netints
        (ext.remove_source_detector_sockets d
          socket_close_behavior_t.kQueueSocketForClose
          (ext.sacn_sockets_reset_source_detector s1).2)).res
        = etcpal_error_t.kEtcPalErrOk := by
  cases hlock : ext.sacn_lock s with
  | none =>
    rw [reset_lock_fails ext netints num_netints s hlock] at hcall
    simp at hcall
  | some s1 =>
    cases hinit : ext.sacn_initialized s with
    | false =>
      rw [reset_not_init ext netints num_netints s s1 hlock hinit] at hcall
      simp at hcall
    | true =>
      by_cases hreset : (ext.sacn_sockets_reset_source_detector s1).1
          = etcpal_error_t.kEtcPalErrOk
      · by_cases hnetints : (ext.sacn_initialize_source_detector_netints
            (ext.get_sacn_source_detector (ext.sacn_sockets_reset_source_detector s1).2)
            netints num_netints
            (ext.remove_source_detector_sockets
              (ext.get_sacn_source_detector (ext.sacn_sockets_reset_source_detector s1).2)
              socket_close_behavior_t.kQueueSocketForClose
              (ext.sacn_sockets_reset_source_detector s1).2)).res
            = etcpal_error_t.kEtcPalErrOk
        · rw [(reset_adds_sockets ext netints num_netints s s1 hlock hinit hreset hnetints).2]
            at hcall
          simp at hcall
          subst hcall
          exact ⟨s1, rfl, rfl, hreset, rfl, hnetints⟩
        · rw [reset_netints_fail ext netints num_netints s s1 hlock hinit hreset hnetints]
            at hcall
          simp at hcall
      · rw [reset_sockets_reset_fails ext netints num_netints s s1 hlock hinit hreset] at hcall
        simp at hcall

/-- C4: `sacn_source_detector_reset_networking` tears down before it rebuilds.  In
every run in which `add_source_detector_sockets` is called on a detector, the calls made
are exactly `sacn_initialized`, `sacn_lock`, `sacn_sockets_reset_source_detector`,
`get_sacn_source_detector`, `remove_source_detector_sockets(detector,
kQueueSocketForClose)`, `sacn_initialize_source_detector_netints(&detector->netints,
netints, num_netints)`, `add_source_detector_sockets(detector)`, `sacn_unlock`, in this
order: the teardown comes first, the re-initialization between the teardown and the
rebuild, sockets are added once, on that detector only, and never before the teardown.
When the interface re-initialization returns an error, `add_source_detector_sockets` is
not called: the old sockets stay queued for close and the error is returned. -/
theorem reset_teardown_before_rebuild {σ : Type} (ext : Externals σ) (netints : NetintArray)
    (num_netints : Nat) (s : σ) :
    (∀ d, Call.add_source_detector_sockets d ∈
        (sacn_source_detector_reset_networking ext netints num_netints s).trace →
      (sacn_source_detector_reset_networking ext netints num_netints s).trace =
        [Call.sacn_initialized, Call.sacn_lock true,
         Call.sacn_sockets_reset_source_detector, Call.get_sacn_source_detector,
         Call.remove_source_detector_sockets d socket_close_behavior_t.kQueueSocketForClose,
         Call.sacn_initialize_source_detector_netints d netints num_netints,
         Call.add_source_detector_sockets d, Call.sacn_unlock] ∧
      called_in_order
        (Call.remove_source_detector_sockets d socket_close_behavior_t.kQueueSocketForClose)
        (Call.sacn_initialize_source_detector_netints d netints num_netints)
        (Call.add_source_detector_sockets d)
        (sacn_source_detector_reset_networking ext netints num_netints s).trace ∧
      (∀ p u, (sacn_source_detector_reset_networking ext netints num_netints s).trace =
          p ++ Call.remove_source_detector_sockets d
            socket_close_behavior_t.kQueueSocketForClose :: u →
        ∀ e, Call.add_source_detector_sockets e ∉ p) ∧
      (∀ e, Call.add_source_detector_sockets e ∈
          (sacn_source_detector_reset_networking ext netints num_netints s).trace → e = d) ∧
      (sacn_source_detector_reset_networking ext netints num_netints s).trace.count
        (Call.add_source_detector_sockets d) = 1) ∧
    (∀ s1, ext.sacn_lock s = some s1 → ext.sacn_initialized s = true →
      (ext.sacn_sockets_reset_source_detector s1).1 = etcpal_error_t.kEtcPalErrOk →
      (ext.sacn_initialize_source_detector_netints
        (ext.get_sacn_source_detector (ext.sacn_sockets_reset_source_detector s1).2)
        netints num_netints
        (ext.remove_source_detector_sockets
          (ext.get_sacn_source_detector (ext.sacn_sockets_reset_source_detector s1).2)
          socket_close_behavior_t.kQueueSocketForClose
          (ext.sacn_sockets_reset_source_detector s1).2)).res
        ≠ etcpal_error_t.kEtcPalErrOk →
      (∀ d, Call.add_source_detector_sockets d ∉
        (sacn_source_detector_reset_networking ext netints num_netints s).trace) ∧
      Call.remove_source_detector_sockets
          (ext.get_sacn_source_detector (ext.sacn_sockets_reset_source_detector s1).2)
          socket_close_behavior_t.kQueueSocketForClose ∈
        (sacn_source_detector_reset_networking ext netints num_netints s).trace ∧
      (sacn_source_detector_reset_networking ext netints num_netints s).res =
        (ext.sacn_initialize_source_detector_netints
          (ext.get_sacn_source_detector (ext.sacn_sockets_reset_source_detector s1).2)
          netints num_netints
          (ext.remove_source_detector_sockets
            (ext.get_sacn_source_detector (ext.sacn_sockets_reset_source_detector s1).2)
            socket_close_behavior_t.kQueueSocketForClose
            (ext.sacn_sockets_reset_source_detector s1).2)).res) := by
  constructor
  · intro d hcall
    obtain ⟨s1, hlock, hinit, hreset, hd, hnetints⟩ :=
      reset_calls_add_sockets ext netints num_netints s d hcall
    subst hd
    have htrace := (reset_adds_sockets ext netints num_netints s s1 hlock hinit hreset
      hnetints).2
    refine ⟨htrace, ?_, ?_, ?_, ?_⟩
    · rw [htrace]
      exact ⟨[Call.sacn_initialized, Call.sacn_lock true,
         Call.sacn_sockets_reset_source_detector, Call.get_sacn_source_detector], [], [],
        [Call.sacn_unlock], rfl⟩
    · intro p u hsplit e hmem
      rw [htrace] at hsplit
      exact trace_prefix_no_add _ netints num_netints p u hsplit e hmem
    · intro e hmem
      rw [htrace] at hmem
      simpa using hmem
    · rw [htrace]
      simp [List.count_cons]
  · intro s1 hlock hinit hreset hnetints
    rw [reset_netints_fail ext netints num_netints s s1 hlock hinit hreset hnetints]
    simp

/-- C4, concrete runs: resetting the networking of the registered detector `1` queues
its sockets for close, re-initializes its interfaces and only then adds sockets; when
the re-initialization finds no usable interface, no socket is added and
`kEtcPalErrNoNetints` is returned after the old sockets were queued for close. -/
theorem reset_teardown_before_rebuild_witness :
    Call.add_source_detector_sockets (some 1) ∈
      (sacn_source_detector_reset_networking fakeExternals (some two_netints) 2
        fake_created).trace ∧
    (sacn_source_detector_reset_networking fakeExternals (some two_netints) 2
        fake_created).trace =
      [Call.sacn_initialized, Call.sacn_lock true,
       Call.sacn_sockets_reset_source_detector, Call.get_sacn_source_detector,
       Call.remove_source_detector_sockets (some 1)
         socket_close_behavior_t.kQueueSocketForClose,
       Call.sacn_initialize_source_detector_netints (some 1) (some two_netints) 2,
       Call.add_source_detector_sockets (some 1), Call.sacn_unlock] ∧
    called_in_order
      (Call.remove_source_detector_sockets (some 1)
        socket_close_behavior_t.kQueueSocketForClose)
      (Call.sacn_initialize_source_detector_netints (some 1) (some two_netints) 2)
      (Call.add_source_detector_sockets (some 1))
      (sacn_source_detector_reset_networking fakeExternals (some two_netints) 2
        fake_created).trace ∧
    (∀ d, Call.add_source_detector_sockets d ∉
      (sacn_source_detector_reset_networking fakeExternals (some two_netints) 2
        fake_no_netints).trace) ∧
    (sacn_source_detector_reset_networking fakeExternals (some two_netints) 2
        fake_no_netints).res = etcpal_error_t.kEtcPalErrNoNetints :=
  have h := (reset_teardown_before_rebuild fakeExternals (some two_netints) 2 fake_created).1
    (some 1) (by decide)
  have g := (reset_teardown_before_rebuild fakeExternals (some two_netints) 2
    fake_no_netints).2 fake_no_netints (by decide) (by decide) (by decide) (by decide)
  ⟨by decide, h.1, h.2.1, g.1, g.2.2⟩

/-- A run of `reset_networking` in which the interface re-initialization fails: the old
sockets are queued for close, no socket is added and the failure is returned. -/
theorem reset_netints_fail_run :
    sacn_source_detector_reset_networking fakeExternals (some two_netints) 2 fake_no_netints =
      { res := etcpal_error_t.kEtcPalErrNoNetints, netints := some two_netints,
        state := fake_no_netints,
        trace := [Call.sacn_initialized, Call.sacn_lock true,
                  Call.sacn_sockets_reset_source_detector, Call.get_sacn_source_detector,
                  Call.remove_source_detector_sockets (some 1)
                    socket_close_behavior_t.kQueueSocketForClose,
                  Call.sacn_initialize_source_detector_netints (some 1) (some two_netints) 2,
                  Call.sacn_unlock] } := by
  decide

/-- With the lock held, `reset_networking` returns `kEtcPalErrOk` only after every
step succeeded. -/
theorem reset_ok_with_lock {σ : Type} (ext : Externals σ) (netints : NetintArray)
    (num_netints : Nat) (s s1 : σ) (hlock : ext.sacn_lock s = some s1)
    (hok : (sacn_source_detector_reset_networking ext netints num_netints s).res
      = etcpal_error_t.kEtcPalErrOk) :
    ext.sacn_initialized s = true ∧
    (ext.sacn_sockets_reset_source_detector s1).1 = etcpal_error_t.kEtcPalErrOk ∧
    Call.add_source_detector_sockets
        (ext.get_sacn_source_detector (ext.sacn_sockets_reset_source_detector s1).2) ∈
      (sacn_source_detector_reset_networking ext netints num_netints s).trace := by
  cases hinit : ext.sacn_initialized s with
  | false =>
    rw [reset_not_init ext netints num_netints s s1 hlock hinit] at hok
    simp at hok
  | true =>
    by_cases hreset : (ext.sacn_sockets_reset_source_detector s1).1
        = etcpal_error_t.kEtcPalErrOk
    · by_cases hnetints : (ext.sacn_initialize_source_detector_netints
          (ext.get_sacn_source_detector (ext.sacn_sockets_reset_source_detector s1).2)
          netints num_netints
          (ext.remove_source_detector_sockets
            (ext.get_sacn_source_detector (ext.sacn_sockets_reset_source_detector s1).2)
            socket_close_behavior_t.kQueueSocketForClose
            (ext.sacn_sockets_reset_source_detector s1).2)).res
          = etcpal_error_t.kEtcPalErrOk
      · refine ⟨rfl, hreset, ?_⟩
        rw [(reset_adds_sockets ext netints num_netints s s1 hlock hinit hreset hnetints).2]
        simp
      · rw [reset_netints_fail ext netints num_netints s s1 hlock hinit hreset hnetints] at hok
        exact absurd hok hnetints
    · rw [reset_sockets_reset_fails ext netints num_netints s s1 hlock hinit hreset] at hok
      exact absurd hok hreset

/-- C5, the failing run: on an initialized library whose lock cannot be taken,
`sacn_source_detector_reset_networking` returns `kEtcPalErrOk` although it made no call
besides `sacn_initialized` and the failed `sacn_lock`: no socket was queued for close,
no interface was re-initialized and no socket was added. -/
theorem reset_networking_ok_without_lock :
    fakeExternals.sacn_initialized fake_lock_broken = true ∧
    fakeExternals.sacn_lock fake_lock_broken = none ∧
    sacn_source_detector_reset_networking fakeExternals (some two_netints) 2 fake_lock_broken =
      { res := etcpal_error_t.kEtcPalErrOk, netints := some two_netints,
        state := fake_lock_broken,
        trace := [Call.sacn_initialized, Call.sacn_lock false] } := by
  decide

/-- With no detector registered, `reset_networking` on an initialized library still
reaches the teardown and the interface re-initialization, handing them the NULL
detector, and it returns `kEtcPalErrNotFound` only if one of the helpers it calls
happens to return that code. -/
theorem reset_null_detector {σ : Type} (ext : Externals σ) (netints : NetintArray)
    (num_netints : Nat) (s s1 : σ) (hlock : ext.sacn_lock s = some s1)
    (hinit : ext.sacn_initialized s = true)
    (hreset : (ext.sacn_sockets_reset_source_detector s1).1 = etcpal_error_t.kEtcPalErrOk)
    (hnull : ext.get_sacn_source_detector (ext.sacn_sockets_reset_source_detector s1).2
      = none) :
    Call.remove_source_detector_sockets none socket_close_behavior_t.kQueueSocketForClose ∈
      (sacn_source_detector_reset_networking ext netints num_netints s).trace ∧
    Call.sacn_initialize_source_detector_netints none netints num_netints ∈
      (sacn_source_detector_reset_networking ext netints num_netints s).trace ∧
    ((sacn_source_detector_reset_networking ext netints num_netints s).res
        = etcpal_error_t.kEtcPalErrNotFound →
      (ext.sacn_initialize_source_detector_netints none netints num_netints
        (ext.remove_source_detector_sockets none
          socket_close_behavior_t.kQueueSocketForClose
          (ext.sacn_sockets_reset_source_detector s1).2)).res
        = etcpal_error_t.kEtcPalErrNotFound ∨
      (ext.add_source_detector_sockets none
        (ext.sacn_initialize_source_detector_netints none netints num_netints
          (ext.remove_source_detector_sockets none
            socket_close_behavior_t.kQueueSocketForClose
            (ext.sacn_sockets_reset_source_detector s1).2)).state).1
        = etcpal_error_t.kEtcPalErrNotFound) := by
  by_cases hnetints : (ext.sacn_initialize_source_detector_netints
      (ext.get_sacn_source_detector (ext.sacn_sockets_reset_source_detector s1).2)
      netints num_netints
      (ext.remove_source_detector_sockets
        (ext.get_sacn_source_detector (ext.sacn_sockets_reset_source_detector s1).2)
        socket_close_behavior_t.kQueueSocketForClose
        (ext.sacn_sockets_reset_source_detector s1).2)).res
      = etcpal_error_t.kEtcPalErrOk
  · obtain ⟨hres, htrace⟩ :=
      reset_adds_sockets ext netints num_netints s s1 hlock hinit hreset hnetints
    rw [hres, htrace, hnull]
    refine ⟨by simp, by simp, fun h => Or.inr h⟩
  · rw [reset_netints_fail ext netints num_netints s s1 hlock hinit hreset hnetints, hnull]
    refine ⟨by simp, by simp, fun h => Or.inl h⟩

/-- C6, the failing run: on an initialized library with no detector registered,
`sacn_source_detector_reset_networking` hands the NULL detector to
`remove_source_detector_sockets`, to `sacn_initialize_source_detector_netints` (as
`&detector->netints`) and to `add_source_detector_sockets`, and returns what these
return, here `kEtcPalErrOk`, not `kEtcPalErrNotFound`. -/
theorem reset_networking_without_detector :
    fakeExternals.sacn_initialized fake_ready = true ∧
    fakeExternals.get_sacn_source_detector fake_ready = none ∧
    sacn_source_detector_reset_networking fakeExternals (some two_netints) 2 fake_ready =
      { res := etcpal_error_t.kEtcPalErrOk, netints := some two_netints,
        state := fake_ready,
        trace := [Call.sacn_initialized, Call.sacn_lock true,
                  Call.sacn_sockets_reset_source_detector, Call.get_sacn_source_detector,
                  Call.remove_source_detector_sockets none
                    socket_close_behavior_t.kQueueSocketForClose,
                  Call.sacn_initialize_source_detector_netints none (some two_netints) 2,
                  Call.add_source_detector_sockets none,
                  Call.sacn_unlock] } ∧
    (sacn_source_detector_reset_networking fakeExternals (some two_netints) 2 fake_ready).res
      ≠ etcpal_error_t.kEtcPalErrNotFound := by
  decide

/-! ## `sacn_source_detector_get_network_interfaces` -/

/-- The stub of lines 224-230 answers `0` and leaves the caller's buffer alone, whatever
the library state is. -/
theorem get_network_interfaces_const {σ : Type} (ext : Externals σ) (netints : NetintArray)
    (netints_size : Nat) (s : σ) :
    sacn_source_detector_get_network_interfaces ext netints netints_size s = (0, netints) :=
  rfl

/-- C3, the failing run: `sacn_source_detector_get_network_interfaces` returns `0` and
writes nothing for every buffer, every size and every library state; in particular for
a created detector that uses two interfaces it returns `0`, not `2`, and the caller's
one-entry buffer is left as it was. -/
theorem get_network_interfaces_returns_zero :
    (∀ (σ : Type) (ext : Externals σ) (netints : NetintArray) (netints_size : Nat) (s : σ),
      sacn_source_detector_get_network_interfaces ext netints netints_size s
        = (0, netints)) ∧
    specExternals.get_sacn_source_detector spec_created = some 1 ∧
    spec_created.detector.map List.length = some 2 ∧
    sacn_source_detector_get_network_interfaces specExternals (some [netint_v4 9]) 1
      spec_created = (0, some [netint_v4 9]) :=
  ⟨fun _ ext netints netints_size s =>
      get_network_interfaces_const ext netints netints_size s,
   by decide, by decide, by decide⟩

/-! ## Partial interface success of `create` -/

/-- The attempt marks exactly the usable interfaces as successes. -/
theorem count_success_attempt (sys : List EtcPalMcastNetintId)
    (requested : List SacnMcastInterface) :
    count_success (requested.map (attempt_netint sys)) = count_usable sys requested := by
  unfold count_success count_usable
  rw [List.countP_map]
  congr 1
  funext n
  by_cases h : n.iface ∈ sys <;> simp [attempt_netint, h]

/-- Successes and failures make up the status array. -/
theorem count_success_add_failure (st : List SacnMcastInterface) :
    count_success st + count_failure st = st.length := by
  unfold count_success count_failure
  rw [List.length_eq_countP_add_countP
    (fun n : SacnMcastInterface => decide (n.status = etcpal_error_t.kEtcPalErrOk)) st]
  congr 2
  funext n
  simp

/-- The Netint Set succeeds exactly when some requested interface is usable. -/
theorem spec_initialize_netints_res (sys : List EtcPalMcastNetintId)
    (requested : List SacnMcastInterface) :
    (spec_initialize_netints sys (some requested)).1 =
      (if 0 < count_usable sys requested then etcpal_error_t.kEtcPalErrOk
       else etcpal_error_t.kEtcPalErrNoNetints) ∧
    (spec_initialize_netints sys (some requested)).2.1 =
      some (requested.map (attempt_netint sys)) := by
  refine ⟨?_, rfl⟩
  have hcount := count_success_attempt sys requested
  unfold count_success at hcount
  simp only [spec_initialize_netints]
  by_cases h : 0 < count_usable sys requested
  · rw [if_pos h, if_pos]
    rw [← hcount, List.countP_pos_iff] at h
    exact List.any_eq_true.mpr h
  · rw [if_neg h, if_neg]
    intro hany
    apply h
    rw [← hcount, List.countP_pos_iff]
    exact List.any_eq_true.mp hany

/-- The modelled helpers keep the registry contract. -/
theorem specExternals_registry : RegistryContract specExternals where
  lock_frame := by
    intro s s1 h
    simp only [specExternals] at h ⊢
    split at h
    · cases h; rfl
    · cases h
  unlock_frame := by intro s; rfl
  add_fresh := by
    intro c a k s h
    simp only [specExternals] at h ⊢
    by_cases hd : s.detector = none
    · simp [hd]
    · simp [hd] at h
  remove_clears := by intro s; rfl

/-- C7 (amended): partial interface success of `sacn_source_detector_create`, for a
usable config on an initialized library on which no detector is registered yet.  With
the global lock acquired: with 3 requested interfaces of which exactly 1 is usable and
`assign_source_detector_to_thread` succeeding, `create` returns `kEtcPalErrOk`,
registers the detector and leaves a 3-entry status array, for the same interfaces,
showing 1 success and 2 failures; with none of the 3 usable it returns
`kEtcPalErrNoNetints`, which is the code of `add_sacn_source_detector` unchanged, the
thread assignment is not attempted, the status array shows 3 failures and no detector
remains registered.  When `sacn_lock` fails, `create` returns `kEtcPalErrSys` and
leaves the library state as it was.  When 1 of the 3 is usable and
`assign_source_detector_to_thread` fails, `create` returns the error of the assignment,
calls both removal functions and no detector remains registered. -/
theorem create_partial_interface_success (s : SpecState) (config : SacnSourceDetectorConfig)
    (requested : List SacnMcastInterface)
    (hinit : s.initialized = true) (hfresh : s.detector = none)
    (hcfg : config.callbacks.source_updated ≠ 0 ∧ config.callbacks.source_expired ≠ 0)
    (hlen : requested.length = 3) :
    (s.lock_ok = true → s.thread_result = etcpal_error_t.kEtcPalErrOk →
      count_usable s.sys_netints requested = 1 →
      (sacn_source_detector_create specExternals (some config) (some requested) 3 s).res
        = etcpal_error_t.kEtcPalErrOk ∧
      (sacn_source_detector_create specExternals (some config) (some requested) 3
        s).state.detector ≠ none ∧
      ∃ st, (sacn_source_detector_create specExternals (some config) (some requested) 3
            s).netints = some st ∧
        st.length = 3 ∧ st.map (fun n => n.iface) = requested.map (fun n => n.iface) ∧
        count_success st = 1 ∧ count_failure st = 2) ∧
    (s.lock_ok = true → count_usable s.sys_netints requested = 0 →
      (sacn_source_detector_create specExternals (some config) (some requested) 3 s).res
        = etcpal_error_t.kEtcPalErrNoNetints ∧
      (sacn_source_detector_create specExternals (some config) (some requested) 3 s).res
        = (specExternals.add_sacn_source_detector (some config) (some requested) 3 s).res ∧
      (sacn_source_detector_create specExternals (some config) (some requested) 3
        s).state.detector = none ∧
      (∀ d, Call.assign_source_detector_to_thread d ∉
        (sacn_source_detector_create specExternals (some config) (some requested) 3
          s).trace) ∧
      ∃ st, (sacn_source_detector_create specExternals (some config) (some requested) 3
            s).netints = some st ∧
        st.length = 3 ∧ st.map (fun n => n.iface) = requested.map (fun n => n.iface) ∧
        count_success st = 0 ∧ count_failure st = 3) ∧
    (s.lock_ok = false →
      (sacn_source_detector_create specExternals (some config) (some requested) 3 s).res
        = etcpal_error_t.kEtcPalErrSys ∧
      (sacn_source_detector_create specExternals (some config) (some requested) 3 s).state
        = s) ∧
    (s.lock_ok = true → s.thread_result ≠ etcpal_error_t.kEtcPalErrOk →
      count_usable s.sys_netints requested = 1 →
      (sacn_source_detector_create specExternals (some config) (some requested) 3 s).res
        = s.thread_result ∧
      (sacn_source_detector_create specExternals (some config) (some requested) 3
        s).state.detector = none ∧
      Call.remove_source_detector_from_thread (some 1)
          socket_close_behavior_t.kCloseSocketNow ∈
        (sacn_source_detector_create specExternals (some config) (some requested) 3
          s).trace ∧
      Call.remove_sacn_source_detector ∈
        (sacn_source_detector_create specExternals (some config) (some requested) 3
          s).trace) := by
  have hres := (spec_initialize_netints_res s.sys_netints requested).1
  have hst := (spec_initialize_netints_res s.sys_netints requested).2
  have hrej : config_rejected (some config) = false := by
    simp [config_rejected, hcfg.1, hcfg.2]
  have hsucc := count_success_attempt s.sys_netints requested
  have hsum := count_success_add_failure (requested.map (attempt_netint s.sys_netints))
  have hmap : (requested.map (attempt_netint s.sys_netints)).map (fun n => n.iface)
      = requested.map (fun n => n.iface) := by
    rw [List.map_map]
    rfl
  rw [List.length_map, hlen, hsucc] at hsum
  refine ⟨?_, ?_, ?_, ?_⟩
  · intro hlock hthread husable
    rw [husable] at hres hsum
    simp only [Nat.lt_one_iff, Nat.zero_lt_one, if_true] at hres
    refine ⟨?_, ?_, requested.map (attempt_netint s.sys_netints), ?_, ?_, hmap, ?_, ?_⟩
    · simp [sacn_source_detector_create, specExternals, hinit, hlock, hthread, hrej, hres,
        hfresh]
    · simp [sacn_source_detector_create, specExternals, hinit, hlock, hthread, hrej, hres,
        hfresh]
    · simp [sacn_source_detector_create, specExternals, hinit, hlock, hthread, hrej, hres,
        hst, hfresh]
    · simp [hlen]
    · rw [hsucc, husable]
    · omega
  · intro hlock husable
    rw [husable] at hres hsum
    simp only [Nat.lt_irrefl, if_false] at hres
    refine ⟨?_, ?_, ?_, ?_, requested.map (attempt_netint s.sys_netints), ?_, ?_, hmap,
      ?_, ?_⟩
    · simp [sacn_source_detector_create, specExternals, hinit, hlock, hrej, hres, hfresh]
    · simp [sacn_source_detector_create, specExternals, hinit, hlock, hrej, hres, hfresh]
    · simp [sacn_source_detector_create, specExternals, hinit, hlock, hrej, hres, hfresh]
    · simp [sacn_source_detector_create, specExternals, hinit, hlock, hrej, hres, hfresh]
    · simp [sacn_source_detector_create, specExternals, hinit, hlock, hrej, hres, hst,
        hfresh]
    · simp [hlen]
    · rw [hsucc, husable]
    · omega
  · intro hlock
    have hnone : specExternals.sacn_lock s = none := by
      simp [specExternals, hlock]
    rw [create_lock_fails specExternals (some config) (some requested) 3 s hnone]
    exact ⟨rfl, rfl⟩
  · intro hlock hthread husable
    rw [husable] at hres
    simp only [Nat.lt_one_iff, Nat.zero_lt_one, if_true] at hres
    refine ⟨?_, ?_, ?_, ?_⟩
    · simp [sacn_source_detector_create, specExternals, hinit, hlock, hthread, hrej, hres,
        hfresh]
    · simp [sacn_source_detector_create, specExternals, hinit, hlock, hthread, hrej, hres,
        hfresh]
    · simp [sacn_source_detector_create, specExternals, hinit, hlock, hthread, hrej, hres,
        hfresh]
    · simp [sacn_source_detector_create, specExternals, hinit, hlock, hthread, hrej, hres,
        hfresh]

/-- C7, concrete runs on a library with no detector registered: of the IPv4 interfaces
`1`, `2`, `3` only `2` is usable, so `create` returns `kEtcPalErrOk` with statuses
failure, success, failure; of the interfaces `4`, `5`, `6` none is usable and `create`
returns `kEtcPalErrNoNetints`, leaving the registry empty; without the lock it returns
`kEtcPalErrSys`; when the thread cannot be started it returns `kEtcPalErrNoMem` and the
registry is empty again. -/
theorem create_partial_interface_success_witness :
    (sacn_source_detector_create specExternals (some good_config)
        (some [netint_v4 1, netint_v4 2, netint_v4 3]) 3 spec_ready).res
      = etcpal_error_t.kEtcPalErrOk ∧
    (sacn_source_detector_create specExternals (some good_config)
        (some [netint_v4 1, netint_v4 2, netint_v4 3]) 3 spec_ready).netints
      = some [{ netint_v4 1 with status := etcpal_error_t.kEtcPalErrNotFound },
              netint_v4 2,
              { netint_v4 3 with status := etcpal_error_t.kEtcPalErrNotFound }] ∧
    (sacn_source_detector_create specExternals (some good_config)
        (some [netint_v4 4, netint_v4 5, netint_v4 6]) 3 spec_ready).res
      = etcpal_error_t.kEtcPalErrNoNetints ∧
    (sacn_source_detector_create specExternals (some good_config)
        (some [netint_v4 4, netint_v4 5, netint_v4 6]) 3 spec_ready).state.detector = none ∧
    (sacn_source_detector_create specExternals (some good_config)
        (some [netint_v4 1, netint_v4 2, netint_v4 3]) 3
        { spec_ready with lock_ok := false }).res = etcpal_error_t.kEtcPalErrSys ∧
    (sacn_source_detector_create specExternals (some good_config)
        (some [netint_v4 1, netint_v4 2, netint_v4 3]) 3
        { spec_ready with thread_result := etcpal_error_t.kEtcPalErrNoMem }).res
      = etcpal_error_t.kEtcPalErrNoMem ∧
    (sacn_source_detector_create specExternals (some good_config)
        (some [netint_v4 1, netint_v4 2, netint_v4 3]) 3
        { spec_ready with thread_result := etcpal_error_t.kEtcPalErrNoMem }).state.detector
      = none :=
  ⟨((create_partial_interface_success spec_ready good_config
        [netint_v4 1, netint_v4 2, netint_v4 3] (by decide) (by decide) (by decide)
        (by decide)).1 (by decide) (by decide) (by decide)).1,
   by decide,
   ((create_partial_interface_success spec_ready good_config
        [netint_v4 4, netint_v4 5, netint_v4 6] (by decide) (by decide) (by decide)
        (by decide)).2.1 (by decide) (by decide)).1,
   ((create_partial_interface_success spec_ready good_config
        [netint_v4 4, netint_v4 5, netint_v4 6] (by decide) (by decide) (by decide)
        (by decide)).2.1 (by decide) (by decide)).2.2.1,
   ((create_partial_interface_success { spec_ready with lock_ok := false } good_config
        [netint_v4 1, netint_v4 2, netint_v4 3] (by decide) (by decide) (by decide)
        (by decide)).2.2.1 (by decide)).1,
   ((create_partial_interface_success
        { spec_ready with thread_result := etcpal_error_t.kEtcPalErrNoMem } good_config
        [netint_v4 1, netint_v4 2, netint_v4 3] (by decide) (by decide) (by decide)
        (by decide)).2.2.2 (by decide) (by decide) (by decide)).1,
   ((create_partial_interface_success
        { spec_ready with thread_result := etcpal_error_t.kEtcPalErrNoMem } good_config
        [netint_v4 1, netint_v4 2, netint_v4 3] (by decide) (by decide) (by decide)
        (by decide)).2.2.2 (by decide) (by decide) (by decide)).2.1⟩

/-- C7 as stated fails, on an initialized library with a usable config.  With 1 of 3
interfaces usable, `create` returns `kEtcPalErrSys` when the global lock cannot be
taken, `kEtcPalErrNoMem` when the detector cannot be assigned to a thread for lack of
memory, and `kEtcPalErrExists` when a detector is registered already.  With none of the
3 usable it returns `kEtcPalErrSys`, not `kEtcPalErrNoNetints`, when the lock cannot be
taken; and when a detector is registered already it returns `kEtcPalErrExists` and that
detector remains registered. -/
theorem create_partial_interface_success_fails :
    count_usable spec_ready.sys_netints [netint_v4 1, netint_v4 2, netint_v4 3] = 1 ∧
    (sacn_source_detector_create specExternals (some good_config)
        (some [netint_v4 1, netint_v4 2, netint_v4 3]) 3
        { spec_ready with lock_ok := false }).res = etcpal_error_t.kEtcPalErrSys ∧
    (sacn_source_detector_create specExternals (some good_config)
        (some [netint_v4 1, netint_v4 2, netint_v4 3]) 3
        { spec_ready with thread_result := etcpal_error_t.kEtcPalErrNoMem }).res
      = etcpal_error_t.kEtcPalErrNoMem ∧
    count_usable spec_created.sys_netints [netint_v4 1, netint_v4 2, netint_v4 3] = 1 ∧
    (sacn_source_detector_create specExternals (some good_config)
        (some [netint_v4 1, netint_v4 2, netint_v4 3]) 3 spec_created).res
      = etcpal_error_t.kEtcPalErrExists ∧
    count_usable spec_ready.sys_netints [netint_v4 4, netint_v4 5, netint_v4 6] = 0 ∧
    (sacn_source_detector_create specExternals (some good_config)
        (some [netint_v4 4, netint_v4 5, netint_v4 6]) 3
        { spec_ready with lock_ok := false }).res = etcpal_error_t.kEtcPalErrSys ∧
    count_usable spec_created.sys_netints [netint_v4 4, netint_v4 5, netint_v4 6] = 0 ∧
    (sacn_source_detector_create specExternals (some good_config)
        (some [netint_v4 4, netint_v4 5, netint_v4 6]) 3 spec_created).res
      = etcpal_error_t.kEtcPalErrExists ∧
    (sacn_source_detector_create specExternals (some good_config)
        (some [netint_v4 4, netint_v4 5, netint_v4 6]) 3 spec_created).state.detector
      ≠ none := by
  decide

end Sacn
